import Mathlib

/-!
Shallow embedding of `custom_components/solis/soliscloud_api.py` (SoliscloudAPI),
used to check the natural-language specification of the solis-sensor repository
against the code. Python dicts become association lists, JSON values an inductive
type, numeric values exact rationals, fallible code `Except`, and the network an
explicit response parameter; the MD5/HMAC-SHA1 primitives from Python's standard
library are abstract function parameters, while base64, UTF-8 and the compact
JSON serialization are implemented concretely.
-/

set_option allowUnsafeReducibility true

attribute [local semireducible] Rat.mul Rat.add Rat.sub Rat.inv

namespace Solis

/-- JSON values as handled by Python's `json` module: `null`/`None`, booleans,
ints, floats (modelled as exact rationals), strings, arrays and objects
(association lists in insertion order, keys assumed unique as after parsing). -/
inductive Json where
  | null
  | b (b : Bool)
  | i (n : Int)
  | q (x : ℚ)
  | s (t : String)
  | arr (xs : List Json)
  | obj (kvs : List (String × Json))

/-- Python errors that the embedded code can raise. -/
inductive PyErr where
  | keyError
  | typeError
  | attributeError
  | valueError
deriving DecidableEq, Repr

/-- Values stored in the normalized record `self._data` (str | int | float). -/
inductive Value where
  | s (t : String)
  | i (n : Int)
  | q (x : ℚ)
deriving DecidableEq, Repr

/-- The target types appearing in the `INVERTER_DATA` field-mapping table. -/
inductive PyType where
  | str
  | int
  | float
deriving DecidableEq, Repr

/-- Numeric view of a JSON value for Python `==` (bools are ints in Python). -/
def jsonNumQ : Json → Option ℚ
  | Json.b bv => some (if bv then 1 else 0)
  | Json.i n => some (n : ℚ)
  | Json.q x => some x
  | _ => none

mutual

/-- Python `==` on JSON-shaped values: numeric kinds compare by value,
strings by content, `None` to `None`; containers structurally (Python dict
equality is order-insensitive, but only scalar values occur as dict keys and
compared fields in this code, so an order-sensitive model suffices). -/
def pyEqJson (a b : Json) : Bool :=
  match jsonNumQ a, jsonNumQ b with
  | some x, some y => decide (x = y)
  | _, _ =>
    match a, b with
    | Json.null, Json.null => true
    | Json.s s1, Json.s s2 => s1 == s2
    | Json.arr xs, Json.arr ys => pyEqJsonList xs ys
    | Json.obj xs, Json.obj ys => pyEqJsonKVs xs ys
    | _, _ => false

def pyEqJsonList (xs ys : List Json) : Bool :=
  match xs, ys with
  | [], [] => true
  | x :: xs, y :: ys => pyEqJson x y && pyEqJsonList xs ys
  | _, _ => false

def pyEqJsonKVs (xs ys : List (String × Json)) : Bool :=
  match xs, ys with
  | [], [] => true
  | (k1, v1) :: xs, (k2, v2) :: ys => k1 == k2 && pyEqJson v1 v2 && pyEqJsonKVs xs ys
  | _, _ => false

end

/-- Python `==` on optional JSON values (`none` is Python `None`). -/
def pyEqOpt : Option Json → Option Json → Bool
  | none, none => true
  | some a, some b => pyEqJson a b
  | _, _ => false

/-- Numeric view of a stored record value for Python `==`. -/
def valueNumQ : Value → Option ℚ
  | Value.i n => some (n : ℚ)
  | Value.q x => some x
  | Value.s _ => none

/-- Python `==` on stored record values: int/float compare numerically,
strings by content, a string never equals a number. -/
def pyEqValue (a b : Value) : Bool :=
  match valueNumQ a, valueNumQ b with
  | some x, some y => decide (x = y)
  | _, _ =>
    match a, b with
    | Value.s t1, Value.s t2 => t1 == t2
    | _, _ => false

/-- First-match association-list lookup over the keys of a parsed JSON object. -/
def lookupKV : List (String × Json) → String → Option Json
  | [], _ => none
  | (k', v) :: rest, k => if k' = k then some v else lookupKV rest k

/-- Python `d.get(k)` on a JSON value: only dicts have `.get`
(anything else raises `AttributeError`); a missing key and a stored JSON
`null` both come back as Python `None`, so both collapse to `none`. -/
def pyGet (j : Json) (k : String) : Except PyErr (Option Json) :=
  match j with
  | Json.obj kvs =>
    match lookupKV kvs k with
    | some Json.null => Except.ok none
    | some v => Except.ok (some v)
    | none => Except.ok none
  | _ => Except.error PyErr.attributeError

/-- Python `d[k]` subscription: a dict raises `KeyError` when the key is
absent; subscribing a non-dict (including `None`) raises `TypeError`. -/
def pyGetItem (j : Json) (k : String) : Except PyErr Json :=
  match j with
  | Json.obj kvs =>
    match lookupKV kvs k with
    | some v => Except.ok v
    | none => Except.error PyErr.keyError
  | _ => Except.error PyErr.typeError

/-- Left-pad a string with zeros to the given width. -/
def padZeros (s : String) (k : Nat) : String :=
  String.mk (List.replicate (k - s.length) '0') ++ s

/-- Exact decimal rendering of a rational whose reduced denominator divides a
power of ten, with Python's trailing `.0` for integral floats; every float
manipulated by this code is decimal-representable, so this models
`repr`/`json.dumps` of such floats. -/
def decimalRepr (x : ℚ) : String :=
  match (List.range 30).find? (fun k => decide (x.den ∣ 10 ^ k)) with
  | some k =>
    if k = 0 then toString x.num ++ ".0"
    else
      let m := x.num.natAbs * (10 ^ k / x.den)
      let ip := m / 10 ^ k
      let fp := m % 10 ^ k
      (if x.num < 0 then "-" else "") ++ toString ip ++ "." ++ padZeros (toString fp) k
  | none => toString x.num ++ "/" ++ toString x.den

/-- Lowercase hexadecimal digit. -/
def hexDigit (n : Nat) : Char :=
  "0123456789abcdef".data.getD n '0'

/-- Four lowercase hex digits, as in Python's `\uXXXX` escapes. -/
def hex4 (n : Nat) : String :=
  String.mk [hexDigit (n / 4096 % 16), hexDigit (n / 256 % 16),
             hexDigit (n / 16 % 16), hexDigit (n % 16)]

/-- Escape one character the way `json.dumps` (default `ensure_ascii=True`)
does: short escapes for the usual control characters, `\uXXXX` for other
non-printable or non-ASCII characters (surrogate pairs above the BMP). -/
def escapeChar (c : Char) : String :=
  if c = '"' then "\\\""
  else if c = '\\' then "\\\\"
  else if c = '\n' then "\\n"
  else if c = '\r' then "\\r"
  else if c = '\t' then "\\t"
  else if c = '\x08' then "\\b"
  else if c = '\x0c' then "\\f"
  else if c.toNat < 0x20 then "\\u" ++ hex4 c.toNat
  else if c.toNat ≤ 0x7e then String.singleton c
  else if c.toNat ≤ 0xffff then "\\u" ++ hex4 c.toNat
  else
    "\\u" ++ hex4 (0xd800 + (c.toNat - 0x10000) / 0x400)
      ++ "\\u" ++ hex4 (0xdc00 + (c.toNat - 0x10000) % 0x400)

/-- Escape a whole string for a JSON string literal. -/
def escapeStr (s : String) : String :=
  s.data.foldl (fun acc c => acc ++ escapeChar c) ""

mutual

/-- Model of `json.dumps(body, separators=(",", ":"))`: compact JSON serialization with
no whitespace, comma and colon separators, insertion-order keys
(`sort_keys=False`). -/
def dumps : Json → String
  | Json.null => "null"
  | Json.b true => "true"
  | Json.b false => "false"
  | Json.i n => toString n
  | Json.q x => decimalRepr x
  | Json.s t => "\"" ++ escapeStr t ++ "\""
  | Json.arr xs => "[" ++ dumpsElems xs ++ "]"
  | Json.obj kvs => "\x7b" ++ dumpsMembers kvs ++ "\x7d"

def dumpsElems : List Json → String
  | [] => ""
  | [x] => dumps x
  | x :: y :: xs => dumps x ++ "," ++ dumpsElems (y :: xs)

def dumpsMembers : List (String × Json) → String
  | [] => ""
  | [(k, v)] => "\"" ++ escapeStr k ++ "\":" ++ dumps v
  | (k, v) :: m :: ms => "\"" ++ escapeStr k ++ "\":" ++ dumps v ++ "," ++ dumpsMembers (m :: ms)

end

/-- UTF-8 encoding of a single character (`str.encode('utf-8')`). -/
def utf8Char (c : Char) : List Nat :=
  let n := c.toNat
  if n < 0x80 then [n]
  else if n < 0x800 then [0xc0 + n / 0x40, 0x80 + n % 0x40]
  else if n < 0x10000 then [0xe0 + n / 0x1000, 0x80 + n / 0x40 % 0x40, 0x80 + n % 0x40]
  else [0xf0 + n / 0x40000, 0x80 + n / 0x1000 % 0x40, 0x80 + n / 0x40 % 0x40, 0x80 + n % 0x40]

/-- UTF-8 encoding of a string as a byte list. -/
def utf8Encode (s : String) : List Nat :=
  (s.data.map utf8Char).flatten

/-- Character of the standard base64 alphabet. -/
def b64Char (n : Nat) : Char :=
  "ABCDEFGHIJKLMNOPQRSTUVWXYZabcdefghijklmnopqrstuvwxyz0123456789+/".data.getD n 'A'

/-- Model of `base64.b64encode` on a byte list, with `=` padding. -/
def b64encode : List Nat → String
  | [] => ""
  | [a] => String.mk [b64Char (a / 4), b64Char (a % 4 * 16)] ++ "=="
  | [a, b] => String.mk [b64Char (a / 4), b64Char (a % 4 * 16 + b / 16), b64Char (b % 16 * 4)] ++ "="
  | a :: b :: c :: rest =>
    String.mk [b64Char (a / 4), b64Char (a % 4 * 16 + b / 16),
               b64Char (b % 16 * 4 + c / 64), b64Char (c % 64)] ++ b64encode rest

/-- Parse a nonempty all-digit character list as a natural number. -/
def parseDigits (cs : List Char) : Option Nat :=
  if cs.isEmpty then none
  else cs.foldl (fun acc c => acc.bind (fun n => if c.isDigit then some (n * 10 + (c.toNat - 48)) else none)) (some 0)

/-- Python `int(s)` on a decimal string: optional sign then digits
(whitespace stripping and underscores are not modelled; no such strings occur). -/
def parseIntStr (t : String) : Option Int :=
  match t.data with
  | '-' :: ds => (parseDigits ds).map (fun n => -(n : Int))
  | '+' :: ds => (parseDigits ds).map (fun n => (n : Int))
  | ds => (parseDigits ds).map (fun n => (n : Int))

/-- Parse unsigned `digits` or `digits.digits` as an exact rational. -/
def parseFloatDigits (cs : List Char) : Option ℚ :=
  let ip := cs.takeWhile (fun c => c != '.')
  match cs.dropWhile (fun c => c != '.') with
  | [] => (parseDigits ip).map (fun n => (n : ℚ))
  | _ :: fracs =>
    match parseDigits ip, parseDigits fracs with
    | some n, some f => some ((n : ℚ) + (f : ℚ) / ((10 : ℚ) ^ fracs.length))
    | _, _ => none

/-- Python `float(s)` on a plain decimal string (exponents and the bare
leading/trailing dot forms are not modelled; no such strings occur here). -/
def parseFloatStr (t : String) : Option ℚ :=
  match t.data with
  | '-' :: ds => (parseFloatDigits ds).map Neg.neg
  | '+' :: ds => parseFloatDigits ds
  | ds => parseFloatDigits ds

/-- Truncation toward zero, as Python `int()` on a float (the comparison uses
the boolean rational order so that it evaluates by kernel reduction). -/
def truncQ (x : ℚ) : Int :=
  if Rat.blt x 0 then -(Rat.floor (-x)) else Rat.floor x

/-- Python `str(x)` on a JSON value (container reprs are not modelled
faithfully; `str` is only applied to scalars in this code). -/
def pyStrOfJson : Json → String
  | Json.null => "None"
  | Json.b true => "True"
  | Json.b false => "False"
  | Json.i n => toString n
  | Json.q x => decimalRepr x
  | Json.s t => t
  | Json.arr _ => "[...]"
  | Json.obj _ => "\x7b...\x7d"

/-- Python `int(x)` on a JSON value: ints pass through, floats truncate,
bools are 0/1, strings parse or raise `ValueError`, anything else `TypeError`. -/
def pyIntOfJson : Json → Except PyErr Int
  | Json.i n => Except.ok n
  | Json.q x => Except.ok (truncQ x)
  | Json.b bv => Except.ok (if bv then 1 else 0)
  | Json.s t =>
    match parseIntStr t with
    | some n => Except.ok n
    | none => Except.error PyErr.valueError
  | _ => Except.error PyErr.typeError

/-- Python `float(x)` on a JSON value. -/
def pyFloatOfJson : Json → Except PyErr ℚ
  | Json.q x => Except.ok x
  | Json.i n => Except.ok (n : ℚ)
  | Json.b bv => Except.ok (if bv then 1 else 0)
  | Json.s t =>
    match parseFloatStr t with
    | some x => Except.ok x
    | none => Except.error PyErr.valueError
  | _ => Except.error PyErr.typeError

/-- Python `float(v)` on a stored record value. -/
def pyFloatOfValue : Value → Except PyErr ℚ
  | Value.q x => Except.ok x
  | Value.i n => Except.ok (n : ℚ)
  | Value.s t =>
    match parseFloatStr t with
    | some x => Except.ok x
    | none => Except.error PyErr.valueError

/-- Python `round(x, p)`: round to `p` decimal digits, ties to even
(exact on the rational model of floats; comparisons use the boolean rational
order so that the function evaluates by kernel reduction). -/
def pyRound (x : ℚ) (p : Nat) : ℚ :=
  let m : ℚ := (10 : ℚ) ^ p
  let y := x * m
  let f : Int := Rat.floor y
  let r := y - (f : ℚ)
  let n : Int :=
    if Rat.blt r (1 / 2) then f
    else if Rat.blt (1 / 2) r then f + 1
    else if f % 2 = 0 then f else f + 1
  (n : ℚ) / m

/-- The normalized record `self._data`: a Python dict in insertion order. -/
abbrev Record := List (String × Value)

/-- Dict lookup in the normalized record. -/
def recordGet : Record → String → Option Value
  | [], _ => none
  | (k', v) :: rest, k => if k' = k then some v else recordGet rest k

/-- Dict assignment `d[k] = v`: update in place or append. -/
def recordSet : Record → String → Value → Record
  | [], k, v => [(k, v)]
  | (k', v') :: rest, k, v =>
    if k' = k then (k, v) :: rest else (k', v') :: recordSet rest k v

/-- Dict `d.pop(k)` after a successful membership check: drop the key. -/
def recordErase : Record → String → Record
  | [], _ => []
  | (k', v) :: rest, k =>
    if k' = k then recordErase rest k else (k', v) :: recordErase rest k

/-- Modelled from the spec: the canonical field-name constants are imported
from `ginlong_const`, a module of this repository that is not under `src/`;
their concrete string values are unknown, so each is modelled as its own
name — the code only requires them to be distinct dictionary keys. -/
def INVERTER_SERIAL : String := "INVERTER_SERIAL"

def INVERTER_PLANT_ID : String := "INVERTER_PLANT_ID"

def INVERTER_DEVICE_ID : String := "INVERTER_DEVICE_ID"

def INVERTER_DATALOGGER_SERIAL : String := "INVERTER_DATALOGGER_SERIAL"

def INVERTER_TIMESTAMP_UPDATE : String := "INVERTER_TIMESTAMP_UPDATE"

def INVERTER_STATE : String := "INVERTER_STATE"

def INVERTER_TEMPERATURE : String := "INVERTER_TEMPERATURE"

def INVERTER_POWER_LIMIT : String := "INVERTER_POWER_LIMIT"

def INVERTER_POWER_STATE : String := "INVERTER_POWER_STATE"

def INVERTER_ACPOWER : String := "INVERTER_ACPOWER"

def INVERTER_ACFREQUENCY : String := "INVERTER_ACFREQUENCY"

def INVERTER_ENERGY_TODAY : String := "INVERTER_ENERGY_TODAY"

def INVERTER_ENERGY_THIS_MONTH : String := "INVERTER_ENERGY_THIS_MONTH"

def INVERTER_ENERGY_THIS_YEAR : String := "INVERTER_ENERGY_THIS_YEAR"

def INVERTER_ENERGY_TOTAL_LIFE : String := "INVERTER_ENERGY_TOTAL_LIFE"

def STRING1_VOLTAGE : String := "STRING1_VOLTAGE"

def STRING2_VOLTAGE : String := "STRING2_VOLTAGE"

def STRING3_VOLTAGE : String := "STRING3_VOLTAGE"

def STRING4_VOLTAGE : String := "STRING4_VOLTAGE"

def STRING1_CURRENT : String := "STRING1_CURRENT"

def STRING2_CURRENT : String := "STRING2_CURRENT"

def STRING3_CURRENT : String := "STRING3_CURRENT"

def STRING4_CURRENT : String := "STRING4_CURRENT"

def STRING1_POWER : String := "STRING1_POWER"

def STRING2_POWER : String := "STRING2_POWER"

def STRING3_POWER : String := "STRING3_POWER"

def STRING4_POWER : String := "STRING4_POWER"

def PHASE1_VOLTAGE : String := "PHASE1_VOLTAGE"

def PHASE2_VOLTAGE : String := "PHASE2_VOLTAGE"

def PHASE3_VOLTAGE : String := "PHASE3_VOLTAGE"

def PHASE1_CURRENT : String := "PHASE1_CURRENT"

def PHASE2_CURRENT : String := "PHASE2_CURRENT"

def PHASE3_CURRENT : String := "PHASE3_CURRENT"

def BAT_REMAINING_CAPACITY : String := "BAT_REMAINING_CAPACITY"

def BAT_TOTAL_ENERGY_CHARGED : String := "BAT_TOTAL_ENERGY_CHARGED"

def BAT_TOTAL_ENERGY_DISCHARGED : String := "BAT_TOTAL_ENERGY_DISCHARGED"

def BAT_DAILY_ENERGY_CHARGED : String := "BAT_DAILY_ENERGY_CHARGED"

def BAT_DAILY_ENERGY_DISCHARGED : String := "BAT_DAILY_ENERGY_DISCHARGED"

def GRID_DAILY_ON_GRID_ENERGY : String := "GRID_DAILY_ON_GRID_ENERGY"

def GRID_DAILY_ENERGY_PURCHASED : String := "GRID_DAILY_ENERGY_PURCHASED"

def GRID_DAILY_ENERGY_USED : String := "GRID_DAILY_ENERGY_USED"

def GRID_MONTHLY_ENERGY_PURCHASED : String := "GRID_MONTHLY_ENERGY_PURCHASED"

def GRID_YEARLY_ENERGY_PURCHASED : String := "GRID_YEARLY_ENERGY_PURCHASED"

def GRID_TOTAL_ON_GRID_ENERGY : String := "GRID_TOTAL_ON_GRID_ENERGY"

def GRID_TOTAL_POWER : String := "GRID_TOTAL_POWER"

def GRID_TOTAL_CONSUMPTION_POWER : String := "GRID_TOTAL_CONSUMPTION_POWER"

def GRID_TOTAL_ENERGY_USED : String := "GRID_TOTAL_ENERGY_USED"

def INVERTER_LAT : String := "INVERTER_LAT"

def INVERTER_LON : String := "INVERTER_LON"

def INVERTER_ADDRESS : String := "INVERTER_ADDRESS"

/-- The fixed HTTP verb used for signing. -/
def VERB : String := "POST"

/-- Resource path of the inverter-detail endpoint. -/
def INVERTER_DETAIL : String := "/v1/api/inveterDetail"

/-- Resource path of the plant-detail endpoint. -/
def PLANT_DETAIL : String := "/v1/api/stationDetail"

/-- One row of a field-mapping table:
(canonical name, vendor JSON key, target type, decimal precision). -/
abbrev TableRow := String × String × PyType × Option Nat

/-- Table `INVERTER_DATA[INVERTER_DETAIL]`: the inverter-detail field-mapping table,
in source order. -/
def attributesInverterDetail : List TableRow := [
  (INVERTER_SERIAL, "sn", PyType.str, none),
  (INVERTER_PLANT_ID, "stationId", PyType.str, none),
  (INVERTER_DEVICE_ID, "id", PyType.str, none),
  (INVERTER_DATALOGGER_SERIAL, "collectorId", PyType.str, none),
  (INVERTER_TIMESTAMP_UPDATE, "dataTimestamp", PyType.int, none),
  (INVERTER_STATE, "state", PyType.int, none),
  (INVERTER_TEMPERATURE, "inverterTemperature", PyType.float, some 1),
  (INVERTER_POWER_LIMIT, "pacPec", PyType.float, some 2),
  (INVERTER_POWER_STATE, "currentState", PyType.int, none),
  (INVERTER_ACPOWER, "pac", PyType.float, some 2),
  (INVERTER_ACFREQUENCY, "fac", PyType.float, some 2),
  (INVERTER_ENERGY_TODAY, "eToday", PyType.float, some 2),
  (INVERTER_ENERGY_THIS_MONTH, "eMonth", PyType.float, some 2),
  (INVERTER_ENERGY_THIS_YEAR, "eYear", PyType.float, some 2),
  (INVERTER_ENERGY_TOTAL_LIFE, "eTotal", PyType.float, some 2),
  (STRING1_VOLTAGE, "uPv1", PyType.float, some 2),
  (STRING2_VOLTAGE, "uPv2", PyType.float, some 2),
  (STRING3_VOLTAGE, "uPv3", PyType.float, some 2),
  (STRING4_VOLTAGE, "uPv4", PyType.float, some 2),
  (STRING1_CURRENT, "iPv1", PyType.float, some 2),
  (STRING2_CURRENT, "iPv2", PyType.float, some 2),
  (STRING3_CURRENT, "iPv3", PyType.float, some 2),
  (STRING4_CURRENT, "iPv4", PyType.float, some 2),
  (STRING1_POWER, "pow1", PyType.float, some 2),
  (STRING2_POWER, "pow2", PyType.float, some 2),
  (STRING3_POWER, "pow3", PyType.float, some 2),
  (STRING4_POWER, "pow4", PyType.float, some 2),
  (PHASE1_VOLTAGE, "uAc1", PyType.float, some 2),
  (PHASE2_VOLTAGE, "uAc2", PyType.float, some 2),
  (PHASE3_VOLTAGE, "uAc3", PyType.float, some 2),
  (PHASE1_CURRENT, "iAc1", PyType.float, some 2),
  (PHASE2_CURRENT, "iAc2", PyType.float, some 2),
  (PHASE3_CURRENT, "iAc3", PyType.float, some 2),
  (BAT_REMAINING_CAPACITY, "batteryCapacitySoc", PyType.float, some 2),
  (BAT_TOTAL_ENERGY_CHARGED, "batteryTotalChargeEnergy", PyType.float, some 2),
  (BAT_TOTAL_ENERGY_DISCHARGED, "batteryTotalDischargeEnergy", PyType.float, some 2),
  (BAT_DAILY_ENERGY_CHARGED, "batteryTodayChargeEnergy", PyType.float, some 2),
  (BAT_DAILY_ENERGY_DISCHARGED, "batteryTodayDischargeEnergy", PyType.float, some 2),
  (GRID_DAILY_ON_GRID_ENERGY, "gridSellTodayEnergy", PyType.float, some 2),
  (GRID_DAILY_ENERGY_PURCHASED, "gridPurchasedTodayEnergy", PyType.float, some 2),
  (GRID_DAILY_ENERGY_USED, "homeLoadTodayEnergy", PyType.float, some 2),
  (GRID_MONTHLY_ENERGY_PURCHASED, "gridPurchasedMonthEnergy", PyType.float, some 2),
  (GRID_YEARLY_ENERGY_PURCHASED, "gridPurchasedYearEnergy", PyType.float, some 2),
  (GRID_TOTAL_ON_GRID_ENERGY, "gridSellTotalEnergy", PyType.float, some 2),
  (GRID_TOTAL_POWER, "pSum", PyType.float, some 2),
  (GRID_TOTAL_CONSUMPTION_POWER, "familyLoadPower", PyType.float, some 2),
  (GRID_TOTAL_ENERGY_USED, "homeLoadTotalEnergy", PyType.float, some 2)]

/-- Table `INVERTER_DATA[PLANT_DETAIL]`: the plant-detail field-mapping table. -/
def attributesPlantDetail : List TableRow := [
  (INVERTER_LAT, "latitude", PyType.float, some 7),
  (INVERTER_LON, "longitude", PyType.float, some 7),
  (INVERTER_ADDRESS, "cityStr", PyType.str, none)]

/-- Embeds `SoliscloudAPI._get_value`: retrieve `key` from `data` as `type_` with
`precision`; `data.get(key)` yields Python `None` for a missing key or a JSON
null, in which case no value is produced; floats are rounded to `precision`
(always set in the table for float rows; the function's default is 2). -/
def getValue (data : Json) (key : String) (ty : PyType) (prec : Option Nat) :
    Except PyErr (Option Value) :=
  match pyGet data key with
  | Except.error e => Except.error e
  | Except.ok none => Except.ok none
  | Except.ok (some raw) =>
    match ty with
    | PyType.str => Except.ok (some (Value.s (pyStrOfJson raw)))
    | PyType.int =>
      match pyIntOfJson raw with
      | Except.ok n => Except.ok (some (Value.i n))
      | Except.error e => Except.error e
    | PyType.float =>
      match pyFloatOfJson raw with
      | Except.ok x => Except.ok (some (Value.q (pyRound x (prec.getD 2))))
      | Except.error e => Except.error e

/-- The loop body of `SoliscloudAPI._collect_inverter_data`, walking a
field-mapping table (the `key is not None` guard in the source is always true:
every table row carries a vendor key). -/
def collectFold (tbl : List TableRow) (jd : Json) (acc : Record) : Except PyErr Record :=
  match tbl with
  | [] => Except.ok acc
  | (ck, vk, ty, prec) :: rest =>
    match getValue jd vk ty prec with
    | Except.error e => Except.error e
    | Except.ok none => collectFold rest jd acc
    | Except.ok (some v) => collectFold rest jd (recordSet acc ck v)

/-- Embeds `SoliscloudAPI._collect_inverter_data`: read `payload['data']` and walk the
inverter-detail field-mapping table, storing each available value under its
canonical name. -/
def collectInverterData (payload : Json) : Except PyErr Record :=
  match pyGetItem payload "data" with
  | Except.error e => Except.error e
  | Except.ok jd => collectFold attributesInverterDetail jd []

/-- The element-checking loop of `SoliscloudAPI._purge_if_unused`: `true` iff
every listed key is present and Python-equal to the sentinel value (a missing
key's `KeyError` is swallowed and aborts the check). -/
def purgeCheck (d : Record) (v : Value) : List String → Bool
  | [] => true
  | e :: es =>
    match recordGet d e with
    | none => false
    | some x => pyEqValue x v && purgeCheck d v es

/-- Embeds `SoliscloudAPI._purge_if_unused`: remove all the listed keys, but only when
every one of them is present and equal to the sentinel value. -/
def purgeIfUnused (d : Record) (v : Value) (elements : List String) : Record :=
  if purgeCheck d v elements then elements.foldl recordErase d else d

/-- Embeds `SoliscloudAPI._post_process`: on a non-empty record, replace the update
timestamp by its value divided by 1000 (raising `KeyError` when the key is
absent), then purge each AC phase whose current and voltage both read 0.0. -/
def postProcess (d : Record) : Except PyErr Record :=
  if d.isEmpty then Except.ok d
  else
    match recordGet d INVERTER_TIMESTAMP_UPDATE with
    | none => Except.error PyErr.keyError
    | some ts =>
      match pyFloatOfValue ts with
      | Except.error e => Except.error e
      | Except.ok x =>
        let d1 := recordSet d INVERTER_TIMESTAMP_UPDATE (Value.q (x / 1000))
        let d2 := purgeIfUnused d1 (Value.q 0) [PHASE1_CURRENT, PHASE1_VOLTAGE]
        let d3 := purgeIfUnused d2 (Value.q 0) [PHASE2_CURRENT, PHASE2_VOLTAGE]
        let d4 := purgeIfUnused d3 (Value.q 0) [PHASE3_CURRENT, PHASE3_VOLTAGE]
        Except.ok d4

/-- Embeds `SoliscloudConfig`: portal configuration (domain, username, key id,
secret bytes, plant id), immutable once constructed. -/
structure SoliscloudConfig where
  domain : String
  username : String
  keyId : String
  secret : List Nat
  plantid : String

/-- The cryptographic primitives taken from Python's standard library
(`hashlib.md5` and `hmac.new(..., digestmod=hashlib.sha1)`), treated as
abstract byte-level functions: `md5` maps a message to its digest and
`hmacSha1` maps a key and a message to the HMAC-SHA1 digest. -/
structure Crypto where
  md5 : List Nat → List Nat
  hmacSha1 : List Nat → List Nat → List Nat

/-- A broken-down UTC instant as needed by
`strftime("%a, %d %b %Y %H:%M:%S GMT")`; weekday 0 is Monday. -/
structure DateTime where
  weekday : Nat
  day : Nat
  month : Nat
  year : Nat
  hour : Nat
  minute : Nat
  second : Nat

/-- Two-digit zero-padded field. -/
def pad2 (n : Nat) : String :=
  if n < 10 then "0" ++ toString n else toString n

/-- Abbreviated weekday name, as `strftime("%a")` in the C locale. -/
def weekdayAbbr (w : Nat) : String :=
  ["Mon", "Tue", "Wed", "Thu", "Fri", "Sat", "Sun"].getD w "Mon"

/-- Abbreviated month name, as `strftime("%b")` in the C locale. -/
def monthAbbr (m : Nat) : String :=
  ["Jan", "Feb", "Mar", "Apr", "May", "Jun", "Jul", "Aug", "Sep", "Oct", "Nov", "Dec"].getD (m - 1) "Jan"

/-- Model of `now.strftime("%a, %d %b %Y %H:%M:%S GMT")` on a UTC instant. -/
def httpDate (t : DateTime) : String :=
  weekdayAbbr t.weekday ++ ", " ++ pad2 t.day ++ " " ++ monthAbbr t.month ++ " "
    ++ padZeros (toString t.year) 4 ++ " " ++ pad2 t.hour ++ ":" ++ pad2 t.minute
    ++ ":" ++ pad2 t.second ++ " GMT"

/-- Embeds `SoliscloudAPI._prepare_header`: build the signed header set for a POST of
`body` to `resource` at instant `now`, as an association list in source order. -/
def prepareHeader (C : Crypto) (cfg : SoliscloudConfig) (now : DateTime)
    (body : Json) (resource : String) : List (String × String) :=
  let date := httpDate now
  let contentMD5 := b64encode (C.md5 (utf8Encode (dumps body)))
  let contentType := "application/json"
  let encryptStr := VERB ++ "\n" ++ contentMD5 ++ "\n" ++ contentType ++ "\n"
    ++ date ++ "\n" ++ resource
  let sign := b64encode (C.hmacSha1 cfg.secret (utf8Encode encryptStr))
  let authorization := "API " ++ cfg.keyId ++ ":" ++ sign
  [("Content-MD5", contentMD5), ("Content-Type", contentType),
   ("Date", date), ("Authorization", authorization)]

/-- Lookup in a header association list. -/
def lookupStr : List (String × String) → String → Option String
  | [], _ => none
  | (k', v) :: rest, k => if k' = k then some v else lookupStr rest k

/-- What the network does for one POST: an HTTP response with a status and a
parsed JSON body, or a timeout / transport-level error carrying the message
that `"%s" % err` would produce. -/
inductive NetResponse where
  | ok (status : Nat) (body : Json)
  | err (msg : String)

/-- The result dict built by `_post_data_json`
(`SUCCESS`/`MESSAGE`/`StatusCode`/`Content` keys; absent keys are `none`). -/
structure PostResult where
  success : Bool
  message : Option String
  statusCode : Option Nat
  content : Option Json

/-- One outbound HTTP POST as issued by `_post_data_json`: the resource path,
the prepared headers, and the exact bytes passed as the request body. -/
structure Request where
  resource : String
  headers : List (String × String)
  body : List Nat
deriving DecidableEq

/-- Embeds `SoliscloudAPI._post_data_json`: prepare the signed header, fail
immediately (issuing no request) when no session handle is present, otherwise
issue the POST with the compact-serialized body; HTTP 200 is a success, any
other status a failure carrying the status code and a message, and a
timeout/transport error is captured as a failure result instead of raising.
The second component lists the requests actually issued. -/
def postDataJson (C : Crypto) (cfg : SoliscloudConfig) (now : DateTime)
    (session : Option Unit) (resource : String) (params : Json)
    (resp : NetResponse) : PostResult × List Request :=
  let header := prepareHeader C cfg now params resource
  match session with
  | none => ({ success := false, message := none, statusCode := none, content := none }, [])
  | some _ =>
    let req : Request :=
      { resource := resource, headers := header, body := utf8Encode (dumps params) }
    match resp with
    | NetResponse.ok status body =>
      if status = 200 then
        ({ success := true, message := some "OK",
           statusCode := some status, content := some body }, [req])
      else
        ({ success := false, message := some ("Got http statuscode: " ++ toString status),
           statusCode := some status, content := some body }, [req])
    | NetResponse.err m =>
      ({ success := false, message := some m, statusCode := none, content := none }, [req])

/-- The inverter directory `{serial: device_id}` built by
`fetch_inverter_list`: keys and values are `record.get(...)` results, so
either may be Python `None`. -/
abbrev DMap := List (Option Json × Option Json)

/-- Python dict assignment with `==`-based key matching: update the first
matching entry in place, else append. -/
def dictInsertD : DMap → Option Json → Option Json → DMap
  | [], k, v => [(k, v)]
  | (k', v') :: rest, k, v =>
    if pyEqOpt k' k then (k', v) :: rest else (k', v') :: dictInsertD rest k v

/-- Python `k in d` on the inverter directory. -/
def dmapContains (m : DMap) (k : Option Json) : Bool :=
  m.any (fun e => pyEqOpt e.1 k)

/-- Python `d[k]` on the inverter directory (after a membership check). -/
def dmapGet (m : DMap) (k : Option Json) : Option Json :=
  match m.find? (fun e => pyEqOpt e.1 k) with
  | some e => e.2
  | none => none

/-- Python `None` becomes JSON `null` when serialized into a request body. -/
def optToJson : Option Json → Json
  | some j => j
  | none => Json.null

/-- A JSON value assigned to `self._user_id`: JSON `null` is Python `None`. -/
def jsonOpt : Json → Option Json
  | Json.null => none
  | j => some j

/-- The mutable instance state of `SoliscloudAPI`: session handle, user id,
cached inverter directory, and the normalized data record. -/
structure ApiState where
  session : Option Unit
  userId : Option Json
  inverterList : Option DMap
  data : Record

/-- Embeds `SoliscloudAPI.is_online`: logged in iff a user id is stored. -/
def isOnline (st : ApiState) : Bool :=
  st.userId.isSome

/-- The loop of `fetch_inverter_list` over `data.records`: add
`record.get('sn') : record.get('id')` for each record (a non-dict record
raises `AttributeError`, with `sn` read first). -/
def buildDeviceIds : List Json → DMap → Except PyErr DMap
  | [], m => Except.ok m
  | r :: rs, m =>
    match pyGet r "sn", pyGet r "id" with
    | Except.ok sn, Except.ok did => buildDeviceIds rs (dictInsertD m sn did)
    | Except.error e, _ => Except.error e
    | _, Except.error e => Except.error e

/-- Embeds `SoliscloudAPI.fetch_inverter_list`: POST the plant id to the
inverter-list resource; on success build the serial-to-device-id directory
from `data.records` (a missing `data` or `records` key raises `KeyError`,
uncaught here); on failure clear the user id and return Python `None`. -/
def fetchInverterList (C : Crypto) (cfg : SoliscloudConfig) (now : DateTime)
    (st : ApiState) (plantId : String) (resp : NetResponse) :
    ApiState × Except PyErr (Option DMap) × List Request :=
  let params := Json.obj [("stationId", Json.s plantId)]
  let pr := postDataJson C cfg now st.session "/v1/api/inveterList" params resp
  if pr.1.success then
    match (pyGetItem (pr.1.content.getD Json.null) "data").bind (fun d => pyGetItem d "records") with
    | Except.error e => (st, Except.error e, pr.2)
    | Except.ok (Json.arr records) =>
      match buildDeviceIds records [] with
      | Except.ok m => (st, Except.ok (some m), pr.2)
      | Except.error e => (st, Except.error e, pr.2)
    | Except.ok _ => (st, Except.error PyErr.typeError, pr.2)
  else ({ st with userId := none }, Except.ok none, pr.2)

/-- Embeds `SoliscloudAPI.login`: store the session handle, reset the inverter list,
POST the configured username to the add-user resource; on success extract
`data.userId` and fetch the inverter list, with `KeyError` from either step
absorbed by clearing the user id; return `is_online` (a non-`KeyError`
exception would propagate, carried here in the `Except`). -/
def login (C : Crypto) (cfg : SoliscloudConfig) (now : DateTime)
    (st : ApiState) (r1 r2 : NetResponse) :
    ApiState × Except PyErr Bool × List Request :=
  let st0 : ApiState := { st with session := some (), inverterList := none }
  let pr := postDataJson C cfg now st0.session "/v1/api/addUser"
    (Json.obj [("userName", Json.s cfg.username), ("userType", Json.i 0)]) r1
  if pr.1.success then
    match (pyGetItem (pr.1.content.getD Json.null) "data").bind (fun d => pyGetItem d "userId") with
    | Except.error PyErr.keyError => ({ st0 with userId := none }, Except.ok false, pr.2)
    | Except.error e => (st0, Except.error e, pr.2)
    | Except.ok uid =>
      let st1 : ApiState := { st0 with userId := jsonOpt uid }
      let fr := fetchInverterList C cfg now st1 cfg.plantid r2
      match fr.2.1 with
      | Except.ok dm =>
        let st2 : ApiState := { fr.1 with inverterList := dm }
        (st2, Except.ok (isOnline st2), pr.2 ++ fr.2.2)
      | Except.error PyErr.keyError =>
        ({ fr.1 with userId := none }, Except.ok false, pr.2 ++ fr.2.2)
      | Except.error e => (fr.1, Except.error e, pr.2 ++ fr.2.2)
  else ({ st0 with userId := none }, Except.ok false, pr.2)

/-- Embeds `SoliscloudAPI.logout`: close the HTTP session handle if present (the
boolean records whether `close` was called), and clear the session handle,
user id and inverter list unconditionally. -/
def logout (st : ApiState) : ApiState × Bool :=
  ({ session := none, userId := none, inverterList := none, data := st.data },
   st.session.isSome)

/-- Embeds `SoliscloudAPI.fetch_inverter_data` (with the inlined
`_get_inverter_details` POST): reset the data record; when logged in and the
serial is a key of the cached directory, POST `{id, sn}` to the
inverter-detail resource, collect and post-process the payload; otherwise
return Python `None` without issuing any request. -/
def fetchInverterData (C : Crypto) (cfg : SoliscloudConfig) (now : DateTime)
    (st : ApiState) (serial : String) (resp : NetResponse) :
    ApiState × Except PyErr (Option Record) × List Request :=
  let st := { st with data := [] }
  if (isOnline st) then
    match st.inverterList with
    | some lst =>
      if dmapContains lst (some (Json.s serial)) then
        let deviceId := dmapGet lst (some (Json.s serial))
        let params := Json.obj [("id", optToJson deviceId), ("sn", Json.s serial)]
        let pr := postDataJson C cfg now st.session INVERTER_DETAIL params resp
        match (if pr.1.success then pr.1.content else none) with
        | some payload =>
          match collectInverterData payload with
          | Except.error e => (st, Except.error e, pr.2)
          | Except.ok d =>
            match postProcess d with
            | Except.error e => ({ st with data := d }, Except.error e, pr.2)
            | Except.ok d2 => ({ st with data := d2 }, Except.ok (some d2), pr.2)
        | none => (st, Except.ok none, pr.2)
      else (st, Except.ok none, [])
    | none => (st, Except.ok none, [])
  else (st, Except.ok none, [])

/-- Whether a JSON value is an object (a Python dict). -/
def isObj : Json → Bool
  | Json.obj _ => true
  | _ => false

/-- Spec-side reading of one record field for §4.3: the record's field, with a
missing field (or a non-dict record) yielding Python `None`. -/
def specField (r : Json) (k : String) : Option Json :=
  match pyGet r k with
  | Except.ok v => v
  | Except.error _ => none

/-- Spec-side reading of §4.3: the serial-to-device-id mapping built from the
`records` array, mapping each record's `sn` field to its `id` field. -/
def specBuild (rs : List Json) (m : DMap) : DMap :=
  rs.foldl (fun m r => dictInsertD m (specField r "sn") (specField r "id")) m

/-- Concrete crypto primitives for witnesses (any choice works: the claims
about signing are structural in the primitives). -/
def cCrypto : Crypto :=
  ⟨fun _ => [1, 2], fun _ _ => [3, 4]⟩

/-- Concrete configuration for witnesses. -/
def cCfg : SoliscloudConfig :=
  ⟨"dom.example", "user", "KID", [9, 9], "PL1"⟩

/-- Concrete timestamp for witnesses. -/
def cNow : DateTime :=
  ⟨0, 5, 3, 2024, 10, 20, 30⟩

/-- Concrete logged-in state for witnesses: a session handle, a user id, and a
directory containing serial `ABC`. -/
def cSt : ApiState :=
  ⟨some (), some (Json.s "u1"), some [(some (Json.s "ABC"), some (Json.s "dev1"))], []⟩

/-- Concrete inverter-detail payload whose `data` object has `uAc2 = 0.0` and
`iAc2 = 0.0` and all other wired phases non-zero, with a millisecond
timestamp. -/
def c3payload : Json :=
  Json.obj [("data", Json.obj [
    ("dataTimestamp", Json.i 1700000000000),
    ("uAc1", Json.q 230), ("iAc1", Json.q (3 / 2)),
    ("uAc2", Json.q 0), ("iAc2", Json.q 0),
    ("uAc3", Json.q 231), ("iAc3", Json.q (8 / 5))])]

/-- Concrete inverter-detail payload whose `data` object carries a serial
number but no `dataTimestamp` key. -/
def c2payload : Json :=
  Json.obj [("data", Json.obj [("sn", Json.s "ABC")])]

/-- Project one canonical field out of a detail-fetch result (Python `None`
when the fetch did not produce a record). -/
def fetchedGet (res : ApiState × Except PyErr (Option Record) × List Request)
    (k : String) : Option Value :=
  match res.2.1 with
  | Except.ok (some r) => recordGet r k
  | _ => none

/-- Whether a detail-fetch result returned a normalized record. -/
def fetchedOk (res : ApiState × Except PyErr (Option Record) × List Request) : Bool :=
  match res.2.1 with
  | Except.ok (some _) => true
  | _ => false

mutual

/-- Python `==` on JSON values is reflexive. -/
theorem pyEqJson_refl (j : Json) : pyEqJson j j = true :=
  match j with
  | Json.null => rfl
  | Json.b true => rfl
  | Json.b false => rfl
  | Json.i n => by simp [pyEqJson, jsonNumQ]
  | Json.q x => by simp [pyEqJson, jsonNumQ]
  | Json.s t => by simp [pyEqJson, jsonNumQ]
  | Json.arr xs => by
    have h := pyEqJsonList_refl xs
    simp [pyEqJson, jsonNumQ, h]
  | Json.obj kvs => by
    have h := pyEqJsonKVs_refl kvs
    simp [pyEqJson, jsonNumQ, h]

theorem pyEqJsonList_refl (xs : List Json) : pyEqJsonList xs xs = true :=
  match xs with
  | [] => rfl
  | x :: rest => by
    have h1 := pyEqJson_refl x
    have h2 := pyEqJsonList_refl rest
    simp [pyEqJsonList, h1, h2]

theorem pyEqJsonKVs_refl (xs : List (String × Json)) : pyEqJsonKVs xs xs = true :=
  match xs with
  | [] => rfl
  | (k, v) :: rest => by
    have h1 := pyEqJson_refl v
    have h2 := pyEqJsonKVs_refl rest
    simp [pyEqJsonKVs, h1, h2]

end

/-- Python `==` on optional JSON values is reflexive. -/
theorem pyEqOpt_refl (k : Option Json) : pyEqOpt k k = true := by
  cases k with
  | none => rfl
  | some j => simpa [pyEqOpt] using pyEqJson_refl j

/-- Lookup after setting the same key. -/
theorem recordGet_set_self (d : Record) (k : String) (v : Value) :
    recordGet (recordSet d k v) k = some v := by
  induction d with
  | nil => simp [recordSet, recordGet]
  | cons e rest ih =>
    by_cases h : e.1 = k
    · simp [recordSet, recordGet, h]
    · simp [recordSet, recordGet, h, ih]

/-- Lookup after setting a different key. -/
theorem recordGet_set_ne (d : Record) (k k' : String) (v : Value) (h : k' ≠ k) :
    recordGet (recordSet d k v) k' = recordGet d k' := by
  induction d with
  | nil => simp [recordSet, recordGet, Ne.symm h]
  | cons e rest ih =>
    by_cases he : e.1 = k
    · simp [recordSet, recordGet, he, Ne.symm h]
    · simp [recordSet, recordGet, he, ih]

/-- Lookup after erasing the same key. -/
theorem recordGet_erase_self (d : Record) (k : String) :
    recordGet (recordErase d k) k = none := by
  induction d with
  | nil => simp [recordErase, recordGet]
  | cons e rest ih =>
    by_cases h : e.1 = k
    · simpa [recordErase, recordGet, h] using ih
    · simpa [recordErase, recordGet, h] using ih

/-- Lookup after erasing a different key. -/
theorem recordGet_erase_ne (d : Record) (k k' : String) (h : k' ≠ k) :
    recordGet (recordErase d k) k' = recordGet d k' := by
  induction d with
  | nil => simp [recordErase, recordGet]
  | cons e rest ih =>
    by_cases he : e.1 = k
    · have h1 : recordErase (e :: rest) k = recordErase rest k := by
        simp [recordErase, he]
      rw [h1, ih]
      simp [recordGet, he, Ne.symm h]
    · by_cases he' : e.1 = k'
      · simp [recordErase, recordGet, he, he', h]
      · simp [recordErase, recordGet, he, he', ih]

/-- Erasing a list of keys leaves every other key untouched. -/
theorem foldl_erase_not_mem (es : List String) (d : Record) (k : String) (h : k ∉ es) :
    recordGet (es.foldl recordErase d) k = recordGet d k := by
  induction es generalizing d with
  | nil => rfl
  | cons e rest ih =>
    have hk : k ≠ e := fun hh => h (hh ▸ List.mem_cons_self e rest)
    have hrest : k ∉ rest := fun hh => h (List.mem_cons_of_mem e hh)
    rw [List.foldl_cons, ih (recordErase d e) hrest, recordGet_erase_ne d e k hk]

/-- Purging a key list never affects keys outside the list. -/
theorem purgeIfUnused_get_not_mem (d : Record) (v : Value) (es : List String) (k : String)
    (h : k ∉ es) : recordGet (purgeIfUnused d v es) k = recordGet d k := by
  unfold purgeIfUnused
  split
  · exact foldl_erase_not_mem es d k h
  · rfl

/-- When both keys of a pair hold the sentinel value, the purge removes
exactly that pair. -/
theorem purgeIfUnused_pair_removes (d : Record) (v0 : Value) (c v : String) (x y : Value)
    (hc : recordGet d c = some x) (hx : pyEqValue x v0 = true)
    (hv : recordGet d v = some y) (hy : pyEqValue y v0 = true) :
    purgeIfUnused d v0 [c, v] = recordErase (recordErase d c) v := by
  have hchk : purgeCheck d v0 [c, v] = true := by
    simp [purgeCheck, hc, hx, hv, hy]
  simp [purgeIfUnused, hchk, List.foldl]

/-- When the pair check fails, the purge leaves the record unchanged. -/
theorem purgeIfUnused_pair_id (d : Record) (v0 : Value) (c v : String)
    (h : recordGet d c = none ∨ (∃ x, recordGet d c = some x ∧ pyEqValue x v0 = false) ∨
         recordGet d v = none ∨ (∃ y, recordGet d v = some y ∧ pyEqValue y v0 = false)) :
    purgeIfUnused d v0 [c, v] = d := by
  have hchk : purgeCheck d v0 [c, v] = false := by
    rcases h with hc | ⟨x, hc, hx⟩ | hv | ⟨y, hv, hy⟩
    · simp [purgeCheck, hc]
    · simp [purgeCheck, hc, hx]
    · cases hgc : recordGet d c with
      | none => simp [purgeCheck, hgc]
      | some x => simp [purgeCheck, hgc, hv]
    · cases hgc : recordGet d c with
      | none => simp [purgeCheck, hgc]
      | some x => simp [purgeCheck, hgc, hv, hy]
  simp [purgeIfUnused, hchk]

/-- When every table row that targets a canonical key finds no vendor value,
the collection loop leaves that canonical key unset. -/
theorem collectFold_get_none (tbl : List TableRow) (jd : Json) (acc : Record) (ck : String)
    (r : Record)
    (hall : ∀ row ∈ tbl, row.1 = ck → getValue jd row.2.1 row.2.2.1 row.2.2.2 = Except.ok none)
    (hacc : recordGet acc ck = none)
    (hfold : collectFold tbl jd acc = Except.ok r) :
    recordGet r ck = none := by
  induction tbl generalizing acc with
  | nil =>
    simp only [collectFold, Except.ok.injEq] at hfold
    exact hfold ▸ hacc
  | cons row rest ih =>
    obtain ⟨ck', vk, ty, prec⟩ := row
    simp only [collectFold] at hfold
    cases hg : getValue jd vk ty prec with
    | error e => rw [hg] at hfold; exact absurd hfold (by simp)
    | ok ov =>
      rw [hg] at hfold
      cases ov with
      | none =>
        exact ih acc (fun row' h' hck' => hall row' (List.mem_cons_of_mem _ h') hck') hacc hfold
      | some v =>
        by_cases hck : ck' = ck
        · have := hall (ck', vk, ty, prec) (List.mem_cons_self _ _) hck
          rw [hg] at this
          exact absurd this (by simp)
        · have hacc' : recordGet (recordSet acc ck' v) ck = none := by
            rw [recordGet_set_ne acc ck' ck v (fun hh => hck hh.symm)]
            exact hacc
          exact ih (recordSet acc ck' v)
            (fun row' h' hck' => hall row' (List.mem_cons_of_mem _ h') hck') hacc' hfold

/-- When every table row that targets a canonical key extracts the same value,
and some such row exists (or the value is already stored), the collection
loop stores that value under the canonical key. -/
theorem collectFold_get_some (tbl : List TableRow) (jd : Json) (acc : Record) (ck : String)
    (v : Value) (r : Record)
    (hall : ∀ row ∈ tbl, row.1 = ck →
      getValue jd row.2.1 row.2.2.1 row.2.2.2 = Except.ok (some v))
    (hst : recordGet acc ck = some v ∨ ∃ row ∈ tbl, row.1 = ck)
    (hfold : collectFold tbl jd acc = Except.ok r) :
    recordGet r ck = some v := by
  induction tbl generalizing acc with
  | nil =>
    simp only [collectFold, Except.ok.injEq] at hfold
    rcases hst with hst | ⟨row, hrow, _⟩
    · exact hfold ▸ hst
    · exact absurd hrow (List.not_mem_nil row)
  | cons row rest ih =>
    obtain ⟨ck', vk, ty, prec⟩ := row
    simp only [collectFold] at hfold
    cases hg : getValue jd vk ty prec with
    | error e => rw [hg] at hfold; exact absurd hfold (by simp)
    | ok ov =>
      rw [hg] at hfold
      cases ov with
      | none =>
        by_cases hck : ck' = ck
        · have := hall (ck', vk, ty, prec) (List.mem_cons_self _ _) hck
          rw [hg] at this
          exact absurd this (by simp)
        · refine ih acc (fun row' h' hck' => hall row' (List.mem_cons_of_mem _ h') hck') ?_ hfold
          rcases hst with hst | ⟨row', hrow', hck'⟩
          · exact Or.inl hst
          · rcases List.mem_cons.mp hrow' with hh | hh
            · exact absurd (show ck' = ck by rw [hh] at hck'; exact hck') hck
            · exact Or.inr ⟨row', hh, hck'⟩
      | some w =>
        by_cases hck : ck' = ck
        · have hw := hall (ck', vk, ty, prec) (List.mem_cons_self _ _) hck
          rw [hg] at hw
          have hwv : w = v := by simpa using hw
          refine ih (recordSet acc ck' w)
            (fun row' h' hck' => hall row' (List.mem_cons_of_mem _ h') hck') (Or.inl ?_) hfold
          rw [hck, hwv]
          exact recordGet_set_self acc ck v
        · refine ih (recordSet acc ck' w)
            (fun row' h' hck' => hall row' (List.mem_cons_of_mem _ h') hck') ?_ hfold
          rcases hst with hst | ⟨row', hrow', hck'⟩
          · refine Or.inl ?_
            rw [recordGet_set_ne acc ck' ck w (fun hh => hck hh.symm)]
            exact hst
          · rcases List.mem_cons.mp hrow' with hh | hh
            · exact absurd (show ck' = ck by rw [hh] at hck'; exact hck') hck
            · exact Or.inr ⟨row', hh, hck'⟩

/-- Reading a field of a JSON object with `.get` never raises and agrees with
the spec-side field reading. -/
theorem pyGet_obj (kvs : List (String × Json)) (k : String) :
    pyGet (Json.obj kvs) k = Except.ok (specField (Json.obj kvs) k) := by
  cases hl : lookupKV kvs k with
  | none => simp [pyGet, specField, hl]
  | some v => cases v <;> simp [pyGet, specField, hl]

/-- Unfolding of directory membership on a cons cell. -/
theorem dmapContains_cons (e : Option Json × Option Json) (rest : DMap) (k : Option Json) :
    dmapContains (e :: rest) k = (pyEqOpt e.1 k || dmapContains rest k) := rfl

/-- Inserting a key makes the directory contain it. -/
theorem dmapContains_insert_self (m : DMap) (k v : Option Json) :
    dmapContains (dictInsertD m k v) k = true := by
  induction m with
  | nil =>
    rw [show dictInsertD [] k v = [(k, v)] from rfl, dmapContains_cons, pyEqOpt_refl k]
    rfl
  | cons e rest ih =>
    obtain ⟨ek, ev⟩ := e
    by_cases he : pyEqOpt ek k = true
    · rw [show dictInsertD ((ek, ev) :: rest) k v =
            (if pyEqOpt ek k then (ek, v) :: rest else (ek, ev) :: dictInsertD rest k v) from rfl,
          if_pos he, dmapContains_cons]
      simp [he]
    · rw [show dictInsertD ((ek, ev) :: rest) k v =
            (if pyEqOpt ek k then (ek, v) :: rest else (ek, ev) :: dictInsertD rest k v) from rfl,
          if_neg he, dmapContains_cons, ih]
      simp

/-- Insertion preserves every key the directory already contains. -/
theorem dmapContains_insert_mono (m : DMap) (k' v' k : Option Json)
    (h : dmapContains m k = true) : dmapContains (dictInsertD m k' v') k = true := by
  induction m with
  | nil => exact absurd h (by simp [dmapContains])
  | cons e rest ih =>
    obtain ⟨ek, ev⟩ := e
    rw [dmapContains_cons] at h
    rcases Bool.or_eq_true_iff.mp h with h1 | h1
    · by_cases he : pyEqOpt ek k' = true
      · rw [show dictInsertD ((ek, ev) :: rest) k' v' =
              (if pyEqOpt ek k' then (ek, v') :: rest else (ek, ev) :: dictInsertD rest k' v') from rfl,
            if_pos he, dmapContains_cons]
        simp [h1]
      · rw [show dictInsertD ((ek, ev) :: rest) k' v' =
              (if pyEqOpt ek k' then (ek, v') :: rest else (ek, ev) :: dictInsertD rest k' v') from rfl,
            if_neg he, dmapContains_cons]
        simp [h1]
    · by_cases he : pyEqOpt ek k' = true
      · rw [show dictInsertD ((ek, ev) :: rest) k' v' =
              (if pyEqOpt ek k' then (ek, v') :: rest else (ek, ev) :: dictInsertD rest k' v') from rfl,
            if_pos he, dmapContains_cons]
        simp [h1]
      · rw [show dictInsertD ((ek, ev) :: rest) k' v' =
              (if pyEqOpt ek k' then (ek, v') :: rest else (ek, ev) :: dictInsertD rest k' v') from rfl,
            if_neg he, dmapContains_cons, ih h1]
        simp

/-- Building the spec-side directory preserves every contained key. -/
theorem specBuild_contains_mono (rs : List Json) (m : DMap) (k : Option Json)
    (h : dmapContains m k = true) : dmapContains (specBuild rs m) k = true := by
  induction rs generalizing m with
  | nil => exact h
  | cons r rest ih =>
    simp only [specBuild, List.foldl_cons] at ih ⊢
    exact ih _ (dmapContains_insert_mono m _ _ k h)

/-- Every record of the array contributes its serial key to the spec-side
directory. -/
theorem specBuild_contains (rs : List Json) (m : DMap) (r : Json) (h : r ∈ rs) :
    dmapContains (specBuild rs m) (specField r "sn") = true := by
  induction rs generalizing m with
  | nil => exact absurd h (List.not_mem_nil r)
  | cons a rest ih =>
    rcases List.mem_cons.mp h with hh | hh
    · subst hh
      simp only [specBuild, List.foldl_cons]
      exact specBuild_contains_mono rest _ _ (dmapContains_insert_self m _ _)
    · simp only [specBuild, List.foldl_cons]
      exact ih _ hh

/-- On an array of JSON objects, the directory-building loop of
`fetch_inverter_list` never raises and computes exactly the spec-side
serial-to-device-id mapping. -/
theorem buildDeviceIds_eq_spec (rs : List Json) (m : DMap)
    (h : ∀ r ∈ rs, isObj r = true) :
    buildDeviceIds rs m = Except.ok (specBuild rs m) := by
  induction rs generalizing m with
  | nil => rfl
  | cons r rest ih =>
    have hr : isObj r = true := h r (List.mem_cons_self r rest)
    cases r with
    | obj kvs =>
      rw [show buildDeviceIds (Json.obj kvs :: rest) m =
            (match pyGet (Json.obj kvs) "sn", pyGet (Json.obj kvs) "id" with
             | Except.ok sn, Except.ok did => buildDeviceIds rest (dictInsertD m sn did)
             | Except.error e, _ => Except.error e
             | _, Except.error e => Except.error e) from rfl]
      rw [pyGet_obj kvs "sn", pyGet_obj kvs "id"]
      simp only [specBuild, List.foldl_cons]
      exact ih _ (fun r' h' => h r' (List.mem_cons_of_mem _ h'))
    | null => simp [isObj] at hr
    | b bv => simp [isObj] at hr
    | i n => simp [isObj] at hr
    | q x => simp [isObj] at hr
    | s t => simp [isObj] at hr
    | arr xs => simp [isObj] at hr

/-- The state returned by `fetch_inverter_list` preserves the session handle,
the inverter list and the data record; only the user id can change. -/
theorem fetchInverterList_state (C : Crypto) (cfg : SoliscloudConfig) (now : DateTime)
    (st : ApiState) (plantId : String) (resp : NetResponse) :
    (fetchInverterList C cfg now st plantId resp).1.session = st.session ∧
    (fetchInverterList C cfg now st plantId resp).1.inverterList = st.inverterList ∧
    (fetchInverterList C cfg now st plantId resp).1.data = st.data := by
  unfold fetchInverterList
  dsimp only
  split
  · split
    · exact ⟨rfl, rfl, rfl⟩
    · split
      · exact ⟨rfl, rfl, rfl⟩
      · exact ⟨rfl, rfl, rfl⟩
    · exact ⟨rfl, rfl, rfl⟩
  · exact ⟨rfl, rfl, rfl⟩

/-- Whatever the network answers, the state in which `login` returns carries
the session handle it stored on entry. -/
theorem login_session (C : Crypto) (cfg : SoliscloudConfig) (now : DateTime)
    (st : ApiState) (r1 r2 : NetResponse) :
    (login C cfg now st r1 r2).1.session = some () := by
  unfold login
  dsimp only
  split
  · split
    · rfl
    · rfl
    · split
      · exact (fetchInverterList_state C cfg now _ cfg.plantid r2).1
      · exact (fetchInverterList_state C cfg now _ cfg.plantid r2).1
      · exact (fetchInverterList_state C cfg now _ cfg.plantid r2).1
  · rfl

/-- C1: for every configuration, JSON body and resource path, the signed-POST
helper produces headers where Content-MD5 is base64(MD5(compact serialization
of the body)), Content-Type is `application/json`, Date is the GMT-formatted
date string, and Authorization is `API ` + key id + `:` +
base64(HMAC-SHA1(secret, POST + newline + content-MD5 + newline + content-type
+ newline + date + newline + resource path)); and whenever `_post_data_json`
issues the request, the body it sends is exactly the same compact-serialized
bytes that were hashed for the MD5 digest, under the same headers. -/
theorem claim_C1 (C : Crypto) (cfg : SoliscloudConfig) (now : DateTime) (body : Json)
    (resource : String) (session : Option Unit) (resp : NetResponse) :
    lookupStr (prepareHeader C cfg now body resource) "Content-MD5"
      = some (b64encode (C.md5 (utf8Encode (dumps body)))) ∧
    lookupStr (prepareHeader C cfg now body resource) "Content-Type"
      = some "application/json" ∧
    lookupStr (prepareHeader C cfg now body resource) "Date" = some (httpDate now) ∧
    lookupStr (prepareHeader C cfg now body resource) "Authorization"
      = some ("API " ++ cfg.keyId ++ ":" ++ b64encode (C.hmacSha1 cfg.secret
          (utf8Encode ("POST" ++ "\n" ++ b64encode (C.md5 (utf8Encode (dumps body)))
            ++ "\n" ++ "application/json" ++ "\n" ++ httpDate now ++ "\n" ++ resource)))) ∧
    (postDataJson C cfg now session resource body resp).2.map Request.body
      = (if session.isSome then [utf8Encode (dumps body)] else []) ∧
    (postDataJson C cfg now session resource body resp).2.map Request.headers
      = (if session.isSome then [prepareHeader C cfg now body resource] else []) := by
  refine ⟨rfl, rfl, rfl, rfl, ?_, ?_⟩ <;>
    cases session <;> cases resp <;> simp [postDataJson] <;> split <;> simp

/-- C3: for each AC phase pair evaluated independently, the purge removes both
fields exactly when both are present and Python-equal to 0.0, leaves the pair
and every other key untouched otherwise; and on the concrete detail payload
with `uAc2 = 0.0`, `iAc2 = 0.0` and non-zero phases 1 and 3, the normalized
record omits phase-2 voltage and current but retains phases 1 and 3. -/
theorem claim_C3 :
    (∀ (d : Record) (c v : String) (x y : Value),
      recordGet d c = some x → pyEqValue x (Value.q 0) = true →
      recordGet d v = some y → pyEqValue y (Value.q 0) = true →
      recordGet (purgeIfUnused d (Value.q 0) [c, v]) c = none ∧
      recordGet (purgeIfUnused d (Value.q 0) [c, v]) v = none ∧
      ∀ k, k ≠ c → k ≠ v → recordGet (purgeIfUnused d (Value.q 0) [c, v]) k = recordGet d k) ∧
    (∀ (d : Record) (c v : String),
      (recordGet d c = none ∨ (∃ x, recordGet d c = some x ∧ pyEqValue x (Value.q 0) = false) ∨
       recordGet d v = none ∨ (∃ y, recordGet d v = some y ∧ pyEqValue y (Value.q 0) = false)) →
      purgeIfUnused d (Value.q 0) [c, v] = d) ∧
    (fetchedOk (fetchInverterData cCrypto cCfg cNow cSt "ABC" (NetResponse.ok 200 c3payload)) = true ∧
     fetchedGet (fetchInverterData cCrypto cCfg cNow cSt "ABC" (NetResponse.ok 200 c3payload))
       PHASE2_VOLTAGE = none ∧
     fetchedGet (fetchInverterData cCrypto cCfg cNow cSt "ABC" (NetResponse.ok 200 c3payload))
       PHASE2_CURRENT = none ∧
     fetchedGet (fetchInverterData cCrypto cCfg cNow cSt "ABC" (NetResponse.ok 200 c3payload))
       PHASE1_VOLTAGE = some (Value.q 230) ∧
     fetchedGet (fetchInverterData cCrypto cCfg cNow cSt "ABC" (NetResponse.ok 200 c3payload))
       PHASE1_CURRENT = some (Value.q (3 / 2)) ∧
     fetchedGet (fetchInverterData cCrypto cCfg cNow cSt "ABC" (NetResponse.ok 200 c3payload))
       PHASE3_VOLTAGE = some (Value.q 231) ∧
     fetchedGet (fetchInverterData cCrypto cCfg cNow cSt "ABC" (NetResponse.ok 200 c3payload))
       PHASE3_CURRENT = some (Value.q (8 / 5))) := by
  refine ⟨?_, ?_, ?_⟩
  · intro d c v x y hc hx hv hy
    rw [purgeIfUnused_pair_removes d (Value.q 0) c v x y hc hx hv hy]
    refine ⟨?_, recordGet_erase_self _ v, ?_⟩
    · by_cases hcv : c = v
      · rw [← hcv, recordGet_erase_self]
      · rw [recordGet_erase_ne _ v c hcv, recordGet_erase_self]
    · intro k hkc hkv
      rw [recordGet_erase_ne _ v k hkv, recordGet_erase_ne _ c k hkc]
  · intro d c v h
    exact purgeIfUnused_pair_id d (Value.q 0) c v h
  · exact ⟨by decide, by decide, by decide, by decide, by decide, by decide, by decide⟩

/-- Witness for C3: a record with a zero phase pair loses it, and a record
whose voltage key is absent keeps its zero current. -/
theorem claim_C3_witness :
    recordGet (purgeIfUnused [("iAc2", Value.q 0), ("uAc2", Value.q 0), ("pac", Value.i 7)]
      (Value.q 0) ["iAc2", "uAc2"]) "iAc2" = none ∧
    purgeIfUnused [("iAc1", Value.q 0)] (Value.q 0) ["iAc1", "uAc1"]
      = [("iAc1", Value.q 0)] :=
  ⟨(claim_C3.1 [("iAc2", Value.q 0), ("uAc2", Value.q 0), ("pac", Value.i 7)]
      "iAc2" "uAc2" (Value.q 0) (Value.q 0) rfl (by decide) rfl (by decide)).1,
   claim_C3.2.1 [("iAc1", Value.q 0)] "iAc1" "uAc1" (Or.inr (Or.inr (Or.inl rfl)))⟩

/-- C5: fetching detail while not logged in, with no cached directory, or for
a serial that is not a key of the directory, returns Python `None` and issues
no network request. -/
theorem claim_C5 (C : Crypto) (cfg : SoliscloudConfig) (now : DateTime)
    (st : ApiState) (serial : String) (resp : NetResponse)
    (h : st.userId = none ∨ st.inverterList = none ∨
         ∀ lst, st.inverterList = some lst → dmapContains lst (some (Json.s serial)) = false) :
    (fetchInverterData C cfg now st serial resp).2.1 = Except.ok none ∧
    (fetchInverterData C cfg now st serial resp).2.2 = [] := by
  rcases h with h | h | h
  · simp [fetchInverterData, isOnline, h]
  · cases hu : st.userId with
    | none => simp [fetchInverterData, isOnline, hu]
    | some u => simp [fetchInverterData, isOnline, hu, h]
  · cases hu : st.userId with
    | none => simp [fetchInverterData, isOnline, hu]
    | some u =>
      cases hl : st.inverterList with
      | none => simp [fetchInverterData, isOnline, hu, hl]
      | some lst => simp [fetchInverterData, isOnline, hu, hl, h lst hl]

/-- Witness for C5 at a logged-out state. -/
theorem claim_C5_witness :
    (fetchInverterData cCrypto cCfg cNow ⟨some (), none, none, []⟩ "ABC"
        (NetResponse.ok 200 Json.null)).2.1 = Except.ok none ∧
    (fetchInverterData cCrypto cCfg cNow ⟨some (), none, none, []⟩ "ABC"
        (NetResponse.ok 200 Json.null)).2.2 = [] :=
  claim_C5 cCrypto cCfg cNow ⟨some (), none, none, []⟩ "ABC"
    (NetResponse.ok 200 Json.null) (Or.inl rfl)

/-- C6: a non-200 HTTP response yields a failure result carrying the status
code and a human-readable message; a timeout or transport error yields a
failure result carrying its message; and without a session handle the helper
fails immediately, issuing no request; none of these paths raises. -/
theorem claim_C6 (C : Crypto) (cfg : SoliscloudConfig) (now : DateTime)
    (resource : String) (params : Json) :
    (∀ (status : Nat) (body : Json), status ≠ 200 →
      (postDataJson C cfg now (some ()) resource params (NetResponse.ok status body)).1.success = false ∧
      (postDataJson C cfg now (some ()) resource params (NetResponse.ok status body)).1.statusCode = some status ∧
      (postDataJson C cfg now (some ()) resource params (NetResponse.ok status body)).1.message
        = some ("Got http statuscode: " ++ toString status)) ∧
    (∀ msg : String,
      (postDataJson C cfg now (some ()) resource params (NetResponse.err msg)).1.success = false ∧
      (postDataJson C cfg now (some ()) resource params (NetResponse.err msg)).1.message = some msg) ∧
    (∀ resp : NetResponse,
      (postDataJson C cfg now none resource params resp).1.success = false ∧
      (postDataJson C cfg now none resource params resp).2 = []) := by
  refine ⟨fun status body h => ?_, fun msg => ⟨rfl, rfl⟩, fun resp => ⟨rfl, rfl⟩⟩
  simp [postDataJson, h]

/-- Witness for C6 at status 404. -/
theorem claim_C6_witness :
    (postDataJson cCrypto cCfg cNow (some ()) "/v1/api/addUser" Json.null
        (NetResponse.ok 404 Json.null)).1.success = false ∧
    (postDataJson cCrypto cCfg cNow (some ()) "/v1/api/addUser" Json.null
        (NetResponse.ok 404 Json.null)).1.statusCode = some 404 ∧
    (postDataJson cCrypto cCfg cNow (some ()) "/v1/api/addUser" Json.null
        (NetResponse.ok 404 Json.null)).1.message
      = some ("Got http statuscode: " ++ toString 404) :=
  (claim_C6 cCrypto cCfg cNow "/v1/api/addUser" Json.null).1 404 Json.null (by decide)

/-- C8: after `login` immediately followed by `logout`, whatever the network
answered, the user id and inverter list are cleared and the session handle is
closed (login always stores one, so logout's close runs); and `logout` clears
unconditionally from any state, closing exactly when a handle is present. -/
theorem claim_C8 (C : Crypto) (cfg : SoliscloudConfig) (now : DateTime)
    (st : ApiState) (r1 r2 : NetResponse) :
    (logout (login C cfg now st r1 r2).1).1.userId = none ∧
    (logout (login C cfg now st r1 r2).1).1.inverterList = none ∧
    (logout (login C cfg now st r1 r2).1).1.session = none ∧
    (logout (login C cfg now st r1 r2).1).2 = true ∧
    (∀ st' : ApiState, (logout st').1.userId = none ∧ (logout st').1.inverterList = none ∧
      (logout st').1.session = none ∧ (logout st').2 = st'.session.isSome) := by
  refine ⟨rfl, rfl, rfl, ?_, fun st' => ⟨rfl, rfl, rfl, rfl⟩⟩
  show (login C cfg now st r1 r2).1.session.isSome = true
  rw [login_session]
  rfl

/-- When its POST reports failure, `fetch_inverter_list` clears the user id
and returns Python `None`. -/
theorem fetchInverterList_fail (C : Crypto) (cfg : SoliscloudConfig) (now : DateTime)
    (st : ApiState) (plantId : String) (resp : NetResponse)
    (h : (postDataJson C cfg now st.session "/v1/api/inveterList"
        (Json.obj [("stationId", Json.s plantId)]) resp).1.success = false) :
    fetchInverterList C cfg now st plantId resp
      = ({ st with userId := none }, Except.ok none,
         (postDataJson C cfg now st.session "/v1/api/inveterList"
           (Json.obj [("stationId", Json.s plantId)]) resp).2) := by
  unfold fetchInverterList
  simp [h]

/-- C4: whenever the inverter-list POST reports failure,
`fetch_inverter_list` clears the stored user id (and returns `None`); in
particular, when it is invoked from `login` after the add-user POST succeeded
and the user-id extraction succeeded, a failed list POST still makes `login`
end up logged out and return false. -/
theorem claim_C4 (C : Crypto) (cfg : SoliscloudConfig) (now : DateTime) :
    (∀ (st : ApiState) (plantId : String) (resp : NetResponse),
      (postDataJson C cfg now st.session "/v1/api/inveterList"
          (Json.obj [("stationId", Json.s plantId)]) resp).1.success = false →
      (fetchInverterList C cfg now st plantId resp).1.userId = none ∧
      (fetchInverterList C cfg now st plantId resp).2.1 = Except.ok none) ∧
    (∀ (st : ApiState) (r1 r2 : NetResponse) (uid : Json),
      (postDataJson C cfg now (some ()) "/v1/api/addUser"
          (Json.obj [("userName", Json.s cfg.username), ("userType", Json.i 0)]) r1).1.success = true →
      (pyGetItem ((postDataJson C cfg now (some ()) "/v1/api/addUser"
          (Json.obj [("userName", Json.s cfg.username), ("userType", Json.i 0)]) r1).1.content.getD
            Json.null) "data").bind (fun d => pyGetItem d "userId") = Except.ok uid →
      (postDataJson C cfg now (some ()) "/v1/api/inveterList"
          (Json.obj [("stationId", Json.s cfg.plantid)]) r2).1.success = false →
      (login C cfg now st r1 r2).2.1 = Except.ok false ∧
      (login C cfg now st r1 r2).1.userId = none) := by
  constructor
  · intro st plantId resp h
    rw [fetchInverterList_fail C cfg now st plantId resp h]
    exact ⟨rfl, rfl⟩
  · intro st r1 r2 uid h1 h2 h3
    have hfl := fetchInverterList_fail C cfg now
      { st with session := some (), inverterList := none, userId := jsonOpt uid }
      cfg.plantid r2 h3
    unfold login
    simp only [h1, if_true, h2]
    rw [show ({ st with session := some (), inverterList := none, userId := jsonOpt uid } : ApiState)
          = { { st with session := some (), inverterList := none } with userId := jsonOpt uid }
        from rfl] at hfl
    rw [hfl]
    exact ⟨rfl, rfl⟩

/-- Witness for C4: a successful add-user POST and user-id extraction followed
by a failed (HTTP 500) inverter-list POST leaves login returning false with no
user id. -/
theorem claim_C4_witness :
    (login cCrypto cCfg cNow ⟨none, none, none, []⟩
        (NetResponse.ok 200 (Json.obj [("data", Json.obj [("userId", Json.i 42)])]))
        (NetResponse.ok 500 Json.null)).2.1 = Except.ok false ∧
    (login cCrypto cCfg cNow ⟨none, none, none, []⟩
        (NetResponse.ok 200 (Json.obj [("data", Json.obj [("userId", Json.i 42)])]))
        (NetResponse.ok 500 Json.null)).1.userId = none :=
  (claim_C4 cCrypto cCfg cNow).2 ⟨none, none, none, []⟩
    (NetResponse.ok 200 (Json.obj [("data", Json.obj [("userId", Json.i 42)])]))
    (NetResponse.ok 500 Json.null) (Json.i 42) rfl rfl rfl

/-- When the list POST succeeds over HTTP 200 but the response body lacks
`data` or `data.records`, `fetch_inverter_list` raises `KeyError`,
leaving the state untouched. -/
theorem fetchInverterList_keyErr (C : Crypto) (cfg : SoliscloudConfig) (now : DateTime)
    (st : ApiState) (plantId : String) (body : Json)
    (hsess : st.session = some ())
    (hrec : (pyGetItem body "data").bind (fun d => pyGetItem d "records")
      = Except.error PyErr.keyError) :
    fetchInverterList C cfg now st plantId (NetResponse.ok 200 body)
      = (st, Except.error PyErr.keyError,
         (postDataJson C cfg now st.session "/v1/api/inveterList"
           (Json.obj [("stationId", Json.s plantId)]) (NetResponse.ok 200 body)).2) := by
  unfold fetchInverterList
  have hs : (postDataJson C cfg now st.session "/v1/api/inveterList"
      (Json.obj [("stationId", Json.s plantId)]) (NetResponse.ok 200 body)).1.success = true := by
    rw [hsess]; rfl
  have hc : (postDataJson C cfg now st.session "/v1/api/inveterList"
      (Json.obj [("stationId", Json.s plantId)]) (NetResponse.ok 200 body)).1.content
      = some body := by
    rw [hsess]; rfl
  simp only [hs, if_true, hc, Option.getD_some, hrec]

/-- C10: an HTTP-200 inverter-list response whose JSON lacks the `data` key or
the `records` key makes `fetch_inverter_list` raise `KeyError` out of the
function (a direct caller observes the exception, not a failure return, and
the user id is not cleared there); the only handler is in `login`, which
absorbs the `KeyError` by resetting the user id to `None` and returns false. -/
theorem claim_C10 (C : Crypto) (cfg : SoliscloudConfig) (now : DateTime) :
    (∀ (st : ApiState) (plantId : String) (body : Json),
      st.session = some () →
      (pyGetItem body "data").bind (fun d => pyGetItem d "records")
        = Except.error PyErr.keyError →
      (fetchInverterList C cfg now st plantId (NetResponse.ok 200 body)).2.1
        = Except.error PyErr.keyError ∧
      (fetchInverterList C cfg now st plantId (NetResponse.ok 200 body)).1 = st) ∧
    (∀ (st : ApiState) (r1 : NetResponse) (uid : Json) (body : Json),
      (postDataJson C cfg now (some ()) "/v1/api/addUser"
          (Json.obj [("userName", Json.s cfg.username), ("userType", Json.i 0)]) r1).1.success = true →
      (pyGetItem ((postDataJson C cfg now (some ()) "/v1/api/addUser"
          (Json.obj [("userName", Json.s cfg.username), ("userType", Json.i 0)]) r1).1.content.getD
            Json.null) "data").bind (fun d => pyGetItem d "userId") = Except.ok uid →
      (pyGetItem body "data").bind (fun d => pyGetItem d "records")
        = Except.error PyErr.keyError →
      (login C cfg now st r1 (NetResponse.ok 200 body)).2.1 = Except.ok false ∧
      (login C cfg now st r1 (NetResponse.ok 200 body)).1.userId = none) := by
  constructor
  · intro st plantId body hsess hrec
    rw [fetchInverterList_keyErr C cfg now st plantId body hsess hrec]
    exact ⟨rfl, rfl⟩
  · intro st r1 uid body h1 h2 hrec
    have hfr := fetchInverterList_keyErr C cfg now
      { st with session := some (), inverterList := none, userId := jsonOpt uid }
      cfg.plantid body rfl hrec
    unfold login
    simp only [h1, if_true, h2]
    rw [show ({ st with session := some (), inverterList := none, userId := jsonOpt uid } : ApiState)
          = { { st with session := some (), inverterList := none } with userId := jsonOpt uid }
        from rfl] at hfr
    rw [hfr]
    exact ⟨rfl, rfl⟩

/-- Witness for C10: an empty JSON object as list response with a successful
login POST. -/
theorem claim_C10_witness :
    (fetchInverterList cCrypto cCfg cNow ⟨some (), some (Json.s "u1"), none, []⟩ "PL1"
        (NetResponse.ok 200 (Json.obj []))).2.1 = Except.error PyErr.keyError ∧
    (login cCrypto cCfg cNow ⟨none, none, none, []⟩
        (NetResponse.ok 200 (Json.obj [("data", Json.obj [("userId", Json.i 42)])]))
        (NetResponse.ok 200 (Json.obj []))).2.1 = Except.ok false :=
  ⟨((claim_C10 cCrypto cCfg cNow).1 ⟨some (), some (Json.s "u1"), none, []⟩ "PL1"
      (Json.obj []) rfl rfl).1,
   ((claim_C10 cCrypto cCfg cNow).2 ⟨none, none, none, []⟩
      (NetResponse.ok 200 (Json.obj [("data", Json.obj [("userId", Json.i 42)])]))
      (Json.i 42) (Json.obj []) rfl rfl rfl).1⟩

/-- C9: when the list POST succeeds over HTTP 200 and `data.records` is an
array of record objects, `fetch_inverter_list` returns the mapping that sends
each record's `sn` field to its `id` field (built record by record in order,
exactly the spec-side mapping), and every record contributes its serial key to
the map — including records whose `sn` or `id` field is missing, which
contribute a Python `None` key or value that is tolerated rather than causing
a failure. -/
theorem claim_C9 (C : Crypto) (cfg : SoliscloudConfig) (now : DateTime)
    (st : ApiState) (plantId : String) (body : Json) (records : List Json)
    (hsess : st.session = some ())
    (hrec : (pyGetItem body "data").bind (fun d => pyGetItem d "records")
      = Except.ok (Json.arr records))
    (hobj : ∀ r ∈ records, isObj r = true) :
    (fetchInverterList C cfg now st plantId (NetResponse.ok 200 body)).2.1
      = Except.ok (some (specBuild records [])) ∧
    (∀ r ∈ records, dmapContains (specBuild records []) (specField r "sn") = true) := by
  constructor
  · unfold fetchInverterList
    have hs : (postDataJson C cfg now st.session "/v1/api/inveterList"
        (Json.obj [("stationId", Json.s plantId)]) (NetResponse.ok 200 body)).1.success = true := by
      rw [hsess]; rfl
    have hc : (postDataJson C cfg now st.session "/v1/api/inveterList"
        (Json.obj [("stationId", Json.s plantId)]) (NetResponse.ok 200 body)).1.content
        = some body := by
      rw [hsess]; rfl
    simp only [hs, if_true, hc, Option.getD_some, hrec,
      buildDeviceIds_eq_spec records [] hobj]
  · intro r hr
    exact specBuild_contains records [] r hr

/-- Witness for C9: three records, one missing `sn` and one missing `id`. -/
theorem claim_C9_witness :
    (fetchInverterList cCrypto cCfg cNow ⟨some (), some (Json.s "u1"), none, []⟩ "PL1"
        (NetResponse.ok 200 (Json.obj [("data", Json.obj [("records", Json.arr
          [Json.obj [("sn", Json.s "A"), ("id", Json.s "1")],
           Json.obj [("id", Json.s "2")],
           Json.obj [("sn", Json.s "B")]])])]))).2.1
      = Except.ok (some (specBuild
          [Json.obj [("sn", Json.s "A"), ("id", Json.s "1")],
           Json.obj [("id", Json.s "2")],
           Json.obj [("sn", Json.s "B")]] [])) ∧
    dmapContains (specBuild
        [Json.obj [("sn", Json.s "A"), ("id", Json.s "1")],
         Json.obj [("id", Json.s "2")],
         Json.obj [("sn", Json.s "B")]] []) none = true := by
  have h := claim_C9 cCrypto cCfg cNow ⟨some (), some (Json.s "u1"), none, []⟩ "PL1"
    (Json.obj [("data", Json.obj [("records", Json.arr
      [Json.obj [("sn", Json.s "A"), ("id", Json.s "1")],
       Json.obj [("id", Json.s "2")],
       Json.obj [("sn", Json.s "B")]])])])
    [Json.obj [("sn", Json.s "A"), ("id", Json.s "1")],
     Json.obj [("id", Json.s "2")],
     Json.obj [("sn", Json.s "B")]]
    rfl rfl (by decide)
  exact ⟨h.1, h.2 (Json.obj [("id", Json.s "2")]) (List.Mem.tail _ (List.Mem.head _))⟩

/-- C7: on a collected record whose payload carried an integer millisecond
`dataTimestamp`, post-processing succeeds and stores, under the canonical
update-timestamp key, exactly the raw value divided by 1000 as an exact
fractional-second number. -/
theorem claim_C7 (jd : List (String × Json)) (n : Int) (r : Record)
    (hts : lookupKV jd "dataTimestamp" = some (Json.i n))
    (hcol : collectFold attributesInverterDetail (Json.obj jd) [] = Except.ok r) :
    ∃ r2, postProcess r = Except.ok r2 ∧
      recordGet r2 INVERTER_TIMESTAMP_UPDATE = some (Value.q ((n : ℚ) / 1000)) := by
  have hget : getValue (Json.obj jd) "dataTimestamp" PyType.int none
      = Except.ok (some (Value.i n)) := by
    simp [getValue, pyGet, hts, pyIntOfJson]
  have hnodup : (attributesInverterDetail.map (fun row => row.1)).Nodup := by decide
  have htsmem : ((INVERTER_TIMESTAMP_UPDATE, "dataTimestamp", PyType.int,
      (none : Option Nat)) : TableRow) ∈ attributesInverterDetail := by decide
  have hall : ∀ row ∈ attributesInverterDetail, row.1 = INVERTER_TIMESTAMP_UPDATE →
      getValue (Json.obj jd) row.2.1 row.2.2.1 row.2.2.2 = Except.ok (some (Value.i n)) := by
    intro row hrow hck
    have hrr : row = (INVERTER_TIMESTAMP_UPDATE, "dataTimestamp", PyType.int,
        (none : Option Nat)) :=
      List.inj_on_of_nodup_map hnodup hrow htsmem hck
    rw [hrr]
    exact hget
  have hr : recordGet r INVERTER_TIMESTAMP_UPDATE = some (Value.i n) :=
    collectFold_get_some attributesInverterDetail (Json.obj jd) [] INVERTER_TIMESTAMP_UPDATE
      (Value.i n) r hall (Or.inr ⟨_, htsmem, rfl⟩) hcol
  have hne : r.isEmpty = false := by
    cases r with
    | nil => exact absurd hr (by simp [recordGet])
    | cons e rest => rfl
  refine ⟨purgeIfUnused (purgeIfUnused (purgeIfUnused
      (recordSet r INVERTER_TIMESTAMP_UPDATE (Value.q ((n : ℚ) / 1000)))
      (Value.q 0) [PHASE1_CURRENT, PHASE1_VOLTAGE])
      (Value.q 0) [PHASE2_CURRENT, PHASE2_VOLTAGE])
      (Value.q 0) [PHASE3_CURRENT, PHASE3_VOLTAGE], ?_, ?_⟩
  · simp only [postProcess, hne, hr]
    rfl
  · rw [purgeIfUnused_get_not_mem _ _ _ _ (by decide),
        purgeIfUnused_get_not_mem _ _ _ _ (by decide),
        purgeIfUnused_get_not_mem _ _ _ _ (by decide),
        recordGet_set_self]

/-- Witness for C7: the spec's concrete example, a payload timestamp of
1700000000000 milliseconds yielding 1700000000.0 seconds. -/
theorem claim_C7_witness :
    ∃ r2, postProcess [(INVERTER_TIMESTAMP_UPDATE, Value.i 1700000000000)] = Except.ok r2 ∧
      recordGet r2 INVERTER_TIMESTAMP_UPDATE = some (Value.q 1700000000) :=
  claim_C7 [("dataTimestamp", Json.i 1700000000000)] 1700000000000
    [(INVERTER_TIMESTAMP_UPDATE, Value.i 1700000000000)] rfl rfl

/-- Counterexample to C2 as stated: a successful (HTTP 200) detail fetch whose
`data` object carries a serial number but no `dataTimestamp` key does not
complete normally — `_post_process` subscripts the missing update-timestamp
key of the non-empty collected record and the resulting `KeyError` propagates
out of `fetch_inverter_data` instead of the omitted keys being tolerated. -/
theorem claim_C2_counterexample :
    (fetchInverterData cCrypto cCfg cNow cSt "ABC" (NetResponse.ok 200 c2payload)).2.1
      = Except.error PyErr.keyError := rfl

/-- C2 (amended): provided the collection pass succeeds, vendor keys that are
missing or JSON-null in the `data` object are simply omitted from the
collected record (not zero-filled); and the fetch completes normally provided
the record is empty or its update timestamp is present and float-coercible —
without that proviso, `_post_process` raises `KeyError` (see the
counterexample). -/
theorem claim_C2_amended (jd : List (String × Json)) (r : Record)
    (hcol : collectFold attributesInverterDetail (Json.obj jd) [] = Except.ok r) :
    (∀ row ∈ attributesInverterDetail,
      (lookupKV jd row.2.1 = none ∨ lookupKV jd row.2.1 = some Json.null) →
      recordGet r row.1 = none) ∧
    (r = [] → postProcess r = Except.ok []) ∧
    (∀ v x, recordGet r INVERTER_TIMESTAMP_UPDATE = some v → pyFloatOfValue v = Except.ok x →
      ∃ r2, postProcess r = Except.ok r2) := by
  refine ⟨?_, ?_, ?_⟩
  · intro row hrow hmiss
    have hnone : getValue (Json.obj jd) row.2.1 row.2.2.1 row.2.2.2 = Except.ok none := by
      rcases hmiss with h | h <;> simp [getValue, pyGet, h]
    have hnodup : (attributesInverterDetail.map (fun row => row.1)).Nodup := by decide
    refine collectFold_get_none attributesInverterDetail (Json.obj jd) [] row.1 r ?_ rfl hcol
    intro row' hrow' hck
    have hrr : row' = row := List.inj_on_of_nodup_map hnodup hrow' hrow hck
    rw [hrr]
    exact hnone
  · intro h
    rw [h]
    rfl
  · intro v x hv hx
    have hne : r.isEmpty = false := by
      cases r with
      | nil => exact absurd hv (by simp [recordGet])
      | cons e rest => rfl
    refine ⟨purgeIfUnused (purgeIfUnused (purgeIfUnused
        (recordSet r INVERTER_TIMESTAMP_UPDATE (Value.q (x / 1000)))
        (Value.q 0) [PHASE1_CURRENT, PHASE1_VOLTAGE])
        (Value.q 0) [PHASE2_CURRENT, PHASE2_VOLTAGE])
        (Value.q 0) [PHASE3_CURRENT, PHASE3_VOLTAGE], ?_⟩
    simp only [postProcess, hne, hv, hx]
    rfl

/-- Witness for the amended C2: a payload carrying only the timestamp omits
every other canonical field (instantiated at the AC-power row) and
post-processing succeeds. -/
theorem claim_C2_amended_witness :
    recordGet [(INVERTER_TIMESTAMP_UPDATE, Value.i 1700000000000)] INVERTER_ACPOWER = none ∧
    ∃ r2, postProcess [(INVERTER_TIMESTAMP_UPDATE, Value.i 1700000000000)] = Except.ok r2 := by
  have h := claim_C2_amended [("dataTimestamp", Json.i 1700000000000)]
    [(INVERTER_TIMESTAMP_UPDATE, Value.i 1700000000000)] rfl
  exact ⟨h.1 (INVERTER_ACPOWER, "pac", PyType.float, some 2) (by decide) (Or.inl rfl),
         h.2.2 (Value.i 1700000000000) ((1700000000000 : Int) : ℚ) rfl rfl⟩

end Solis
